import Mathlib

/-!
Verification of the session and token lifecycle subsystem of the
backend (`backend/services/auth_service.py`,
`backend/middleware/security_middleware.py`,
`backend/api/routes/secure_auth.py`).

The Python code runs against one of two interchangeable backends chosen
at import time (`USE_REDIS`): a Redis store whose keys carry a
per-key expiry, or plain in-process maps/sets.  Every stateful
definition below therefore takes a `useRedis : Bool` flag (or comes in a
`_redis` / memory pair) and carries both backing stores in its state
record, mirroring the `if USE_REDIS and redis_client: ... else: ...`
shape of the source.  Time is modelled as a natural number of seconds;
a Redis key written with TTL `d` at time `now` is readable exactly at
times `t` with `t < now + d`.
-/

/-! ## Revocation denylist (`add_jti_to_denylist` / `is_jti_revoked`) -/

/-- Combined state of the token denylist: the Redis keys
`revoked:jti:<jti>` (value is always `"1"`, so only the absolute expiry
instant is recorded) and the in-process fallback set `revoked_jtis`. -/
structure DenyState where
  redisDeny : String → Option Nat
  memDeny : List String

def denyInit : DenyState := ⟨fun _ => none, []⟩

/-- `add_jti_to_denylist(jti, exp)` at time `now`:
`ttl = max(exp - int(now), 0)`; Redis branch does
`setex(key, ttl or 1, "1")` (so a key written with `ttl = 0` still lives
for one second); memory branch does `revoked_jtis.add(jti)`, ignoring
`exp` entirely. -/
def add_jti_to_denylist (useRedis : Bool) (st : DenyState) (jti : String)
    (exp now : Nat) : DenyState :=
  let ttl := exp - now
  if useRedis then
    { st with redisDeny := fun k =>
        if k = jti then some (now + (if ttl = 0 then 1 else ttl)) else st.redisDeny k }
  else
    { st with memDeny := jti :: st.memDeny }

/-- What a Redis `GET revoked:jti:<jti>` observes at time `now`:
the stored value while the key is unexpired, nothing afterwards. -/
def denyRedisGet (st : DenyState) (jti : String) (now : Nat) : Option String :=
  match st.redisDeny jti with
  | some e => if now < e then some "1" else none
  | none => none

/-- `is_jti_revoked(jti)`: Redis branch is `bool(redis.get(key))`;
memory branch is `jti in revoked_jtis`. -/
def is_jti_revoked (useRedis : Bool) (st : DenyState) (jti : String) (now : Nat) : Bool :=
  if useRedis then (denyRedisGet st jti now).isSome
  else st.memDeny.contains jti

/-! ## Brute-force guard (`BruteForceProtectionService`) -/

/-- Combined state of the failure counters: Redis keys
`login_attempts:<identifier>` as `(count, absolute expiry)` pairs, and
the in-process fallback dict `failed_attempts` (absent key read as 0). -/
structure BFState where
  redisAttempts : String → Option (Nat × Nat)
  failed_attempts : String → Nat

def bfInit : BFState := ⟨fun _ => none, fun _ => 0⟩

def max_attempts : Nat := 5

def lockout_seconds : Nat := 900

/-- The count a Redis `GET login_attempts:<id>` observes at time `now`
(`int(attempts_raw) if attempts_raw else 0`): 0 once the key expired. -/
def redisGetAttempts (st : BFState) (id : String) (now : Nat) : Nat :=
  match st.redisAttempts id with
  | some (c, e) => if now < e then c else 0
  | none => 0

structure CheckResult where
  blocked : Bool
  attempts : Nat
  retry_after : Nat
deriving Repr, DecidableEq

/-- `BruteForceProtectionService.check(identifier)`:
reads the counter and reports
`{blocked: attempts >= max_attempts, attempts, retry_after: lockout_seconds}`. -/
def bf_check (useRedis : Bool) (st : BFState) (id : String) (now : Nat) : CheckResult :=
  let attempts := if useRedis then redisGetAttempts st id now else st.failed_attempts id
  { blocked := max_attempts ≤ attempts
    attempts := attempts
    retry_after := lockout_seconds }

/-- `BruteForceProtectionService.record_failure(identifier)`:
Redis branch is `INCR key; EXPIRE key lockout_seconds` (INCR creates a
missing/expired key at 1, and the expiry is refreshed on every failure);
memory branch is `failed_attempts[id] = failed_attempts.get(id, 0) + 1`
with no expiry at all. -/
def record_failure (useRedis : Bool) (st : BFState) (id : String) (now : Nat) : BFState :=
  if useRedis then
    let c := redisGetAttempts st id now
    { st with redisAttempts := fun k =>
        if k = id then some (c + 1, now + lockout_seconds) else st.redisAttempts k }
  else
    { st with failed_attempts := fun k =>
        if k = id then st.failed_attempts id + 1 else st.failed_attempts k }

/-- `BruteForceProtectionService.reset(identifier)`: Redis `DEL`, or
`failed_attempts.pop(identifier, None)`. -/
def bf_reset (useRedis : Bool) (st : BFState) (id : String) : BFState :=
  if useRedis then
    { st with redisAttempts := fun k => if k = id then none else st.redisAttempts k }
  else
    { st with failed_attempts := fun k => if k = id then 0 else st.failed_attempts k }

/-! ## Sessions and tokens (`SessionService`) -/

def session_duration : Nat := 24 * 60 * 60

def refresh_duration : Nat := 30 * 24 * 60 * 60

/-- A decoded JWT payload as built by `SessionService._create_token`. -/
structure TokenPayload where
  sub : Nat
  session_id : String
  type : String
  exp : Nat
  iat : Nat
  jti : String
  aud : String
  iss : String
deriving Repr, DecidableEq

/-- `SessionService._create_token(token_type, user_id, session_id,
minutes=..., days=...)`: `exp = now + timedelta(minutes, days)`.  The
random `jti` is supplied by the caller of the model. -/
def create_token (token_type : String) (user_id : Nat) (session_id jti : String)
    (now minutes days : Nat) : TokenPayload :=
  { sub := user_id
    session_id := session_id
    type := token_type
    exp := now + (minutes * 60 + days * 86400)
    iat := now
    jti := jti
    aud := "codegenius-api"
    iss := "codegenius.ai" }

/-- The session record persisted by `create_session`. -/
structure SessionRec where
  user_id : Nat
  session_id : String
  ip_address : String
  user_agent : String
  created_at : Nat
  expires_at : Nat
  remember_me : Bool
  active : Bool
deriving Repr, DecidableEq

/-- In-process `session_store` (the memory backend; the Redis backend
stores the same JSON payload under `session:<sid>` with a TTL equal to
the session duration, i.e. expiring exactly at `expires_at`). -/
structure SessionState where
  sessions : String → Option SessionRec

def sessInit : SessionState := ⟨fun _ => none⟩

/-- The triple returned by `SessionService.create_session`. -/
structure LoginTokens where
  session_id : String
  access_token : TokenPayload
  refresh_token : TokenPayload
deriving Repr, DecidableEq

/-- `SessionService.create_session(user_id, ip, ua, remember_me)` at
time `now`; the random `session_id` and the two token `jti`s are
supplied as arguments.  Faithful to the source: the access token always
gets `minutes=15`, the refresh token always gets `days=30`, and only the
session record duration is gated by `remember_me`. -/
def create_session (st : SessionState) (user_id : Nat) (ip ua : String)
    (remember_me : Bool) (sid access_jti refresh_jti : String) (now : Nat) :
    LoginTokens × SessionState :=
  let access := create_token "access" user_id sid access_jti now 15 0
  let refresh := create_token "refresh" user_id sid refresh_jti now 0 30
  let duration := if remember_me then refresh_duration else session_duration
  let srec : SessionRec :=
    { user_id := user_id
      session_id := sid
      ip_address := ip
      user_agent := ua.take 200
      created_at := now
      expires_at := now + duration
      remember_me := remember_me
      active := true }
  (⟨sid, access, refresh⟩,
   ⟨fun k => if k = sid then some srec else st.sessions k⟩)

/-- `SessionService.invalidate_session`: delete the record. -/
def invalidate_session (st : SessionState) (sid : String) : SessionState :=
  ⟨fun k => if k = sid then none else st.sessions k⟩

/-- `SessionService.validate_session(session_id, ip)`, memory branch:
returns the record plus the store after the call.  Checks, in source
order: record present, `active` truthy, `_now() > expires_at` (removing
the record as a side effect when expired), then the optional strict
IP binding. -/
def validate_session (strict_ip : Bool) (st : SessionState) (sid ip : String)
    (now : Nat) : Option SessionRec × SessionState :=
  match st.sessions sid with
  | none => (none, st)
  | some data =>
    if data.active = false then (none, st)
    else if data.expires_at < now then (none, invalidate_session st sid)
    else if strict_ip ∧ data.ip_address ≠ ip then (none, st)
    else (some data, st)

/-! ## `validate_session`, Redis branch, with its exception handling

The Redis branch reads a raw string, parses it with `json.loads`
(whose `JSONDecodeError` is caught locally and mapped to `None`) and
then runs the same checks as the memory branch, where
`data['expires_at']` can raise `KeyError` and
`datetime.fromisoformat` can raise `ValueError`; both are caught by the
enclosing `except Exception: return None`.  The two library parsers
are taken as parameters, so the totality result holds for every
possible behaviour of `json.loads` / `fromisoformat`. -/

/-- A parsed session JSON object as far as `validate_session` inspects
it; `Option` fields model keys that may be missing from the dict. -/
structure SessionJson where
  active : Option Bool
  expires_at : Option String
  ip_address : Option String
deriving Repr, DecidableEq

/-- The fallible part of the Redis branch after `json.loads` succeeded:
`Except Unit` carries any uncaught Python exception
(`KeyError` on a missing `expires_at`, `ValueError` from
`fromisoformat`). -/
def validate_session_redis_body (fromisoformat : String → Except Unit Nat)
    (strict_ip : Bool) (data : SessionJson) (ip : String) (now : Nat) :
    Except Unit (Option SessionJson) :=
  if data.active.getD false = false then Except.ok none
  else
    match data.expires_at with
    | none => Except.error ()
    | some s =>
      match fromisoformat s with
      | Except.error e => Except.error e
      | Except.ok expires_at =>
        if expires_at < now then Except.ok none
        else if strict_ip ∧ data.ip_address ≠ some ip then Except.ok none
        else Except.ok (some data)

/-- `SessionService.validate_session`, Redis branch: `raw` is what
`redis.get` returned; a `json.loads` failure and any body exception are
both mapped to `None` by the handlers in the source. -/
def validate_session_redis (json_loads : String → Except Unit SessionJson)
    (fromisoformat : String → Except Unit Nat) (strict_ip : Bool)
    (raw : Option String) (ip : String) (now : Nat) : Option SessionJson :=
  match raw with
  | none => none
  | some s =>
    match json_loads s with
    | Except.error _ => none
    | Except.ok data =>
      match validate_session_redis_body fromisoformat strict_ip data ip now with
      | Except.ok r => r
      | Except.error _ => none

/-! ## Rate limiter (`SecurityMiddleware`) -/

/-- One entry of the in-memory rate-limit store:
`{'count': ..., 'window_start': ...}`. -/
structure RLEntry where
  count : Nat
  window_start : Nat
deriving Repr, DecidableEq

/-- `SecurityMiddleware._memory_rate_limit(key, max_requests, window)`
at time `now`: returns the allow/deny decision and the store after the
call.  First call creates `{count: 1, window_start: now}`; a call with
`now - window_start >= window` restarts the window at count 1; within
the window a call observing `count >= max_requests` is rejected without
incrementing, otherwise the count is incremented. -/
def memory_rate_limit (store : String → Option RLEntry) (key : String)
    (max_requests window now : Nat) : Bool × (String → Option RLEntry) :=
  match store key with
  | none => (true, fun k => if k = key then some ⟨1, now⟩ else store k)
  | some data =>
    if window ≤ now - data.window_start then
      (true, fun k => if k = key then some ⟨1, now⟩ else store k)
    else if max_requests ≤ data.count then
      (false, store)
    else
      (true, fun k => if k = key then some ⟨data.count + 1, data.window_start⟩ else store k)

/-- A sequence of `_memory_rate_limit` calls on the same key at the
given times, threading the store; returns the per-call decisions and the
final store. -/
def memory_rate_limit_run (store : String → Option RLEntry) (key : String)
    (max_requests window : Nat) : List Nat → List Bool × (String → Option RLEntry)
  | [] => ([], store)
  | t :: ts =>
    let r := memory_rate_limit store key max_requests window t
    let rest := memory_rate_limit_run r.2 key max_requests window ts
    (r.1 :: rest.1, rest.2)

/-- `SecurityMiddleware._redis_rate_limit(key, max_requests, window)`:
the three store calls (`GET`, `SETEX`, `INCR`) are modelled by their
outcomes, `Except Unit` capturing a raised store error.  The source
wraps the whole body in `try: ... except: return True` (fail open). -/
def redis_rate_limit (getRes : Except Unit (Option Nat))
    (setexRes : Except Unit Unit) (incrRes : Except Unit Nat)
    (max_requests : Nat) : Bool :=
  let body : Except Unit Bool :=
    match getRes with
    | Except.error e => Except.error e
    | Except.ok none =>
      match setexRes with
      | Except.error e => Except.error e
      | Except.ok _ => Except.ok true
    | Except.ok (some c) =>
      if max_requests ≤ c then Except.ok false
      else
        match incrRes with
        | Except.error e => Except.error e
        | Except.ok _ => Except.ok true
  match body with
  | Except.ok b => b
  | Except.error _ => true

/-! ## Route layer (`secure_auth.py`) -/

/-- Combined mutable state touched by the auth routes. -/
structure AuthState where
  deny : DenyState
  bf : BFState
  sess : SessionState

/-- Externally observable side-effecting steps of `secure_login`, in the
order the route performs them; used to state ordering guarantees. -/
inductive LoginEvent
  | bf_check_ip
  | bf_check_username
  | db_lookup
  | password_verify
  | bf_reset_counters
  | bf_record_failure
  | create_session_call
deriving Repr, DecidableEq

/-- The typed failures `secure_login` maps to HTTP statuses:
429 when the IP is blocked, 423 when the username is blocked,
401 on bad credentials. -/
inductive LoginError
  | tooManyRequests
  | accountLocked
  | invalidCredentials
deriving Repr, DecidableEq

/-- A row of the external user table as `secure_login` reads it. -/
structure UserRow where
  id : Nat
  username : String
  hashed_password : String
deriving Repr, DecidableEq

structure LoginResult where
  res : Except LoginError LoginTokens
  state : AuthState
  events : List LoginEvent

/-- `secure_login` (route `POST /login`), memory backends: brute-force
check on the client IP (429 when blocked), then on the username (423
when blocked), then the user-store lookup and — only when a row was
found — `verify_password`; on success reset both counters and create the
session, on failure record a failure against both identifiers and
reject 401.  `db` is the external user store, `verify_password` the
opaque hash-verification collaborator; the session id and token ids are
supplied by the caller. -/
def secure_login (db : String → Option UserRow)
    (verify_password : String → String → Bool) (st : AuthState)
    (username password ip ua : String) (remember_me : Bool)
    (sid access_jti refresh_jti : String) (now : Nat) : LoginResult :=
  let ip_check := bf_check false st.bf ip now
  if ip_check.blocked then
    ⟨Except.error LoginError.tooManyRequests, st, [LoginEvent.bf_check_ip]⟩
  else
    let username_check := bf_check false st.bf username now
    if username_check.blocked then
      ⟨Except.error LoginError.accountLocked, st,
        [LoginEvent.bf_check_ip, LoginEvent.bf_check_username]⟩
    else
      match db username with
      | some user =>
        if verify_password password user.hashed_password then
          let bf1 := bf_reset false (bf_reset false st.bf ip) username
          let r := create_session st.sess user.id ip ua remember_me sid access_jti refresh_jti now
          ⟨Except.ok r.1, ⟨st.deny, bf1, r.2⟩,
            [LoginEvent.bf_check_ip, LoginEvent.bf_check_username, LoginEvent.db_lookup,
             LoginEvent.password_verify, LoginEvent.bf_reset_counters,
             LoginEvent.create_session_call]⟩
        else
          let bf1 := record_failure false (record_failure false st.bf ip now) username now
          ⟨Except.error LoginError.invalidCredentials, ⟨st.deny, bf1, st.sess⟩,
            [LoginEvent.bf_check_ip, LoginEvent.bf_check_username, LoginEvent.db_lookup,
             LoginEvent.password_verify, LoginEvent.bf_record_failure]⟩
      | none =>
        let bf1 := record_failure false (record_failure false st.bf ip now) username now
        ⟨Except.error LoginError.invalidCredentials, ⟨st.deny, bf1, st.sess⟩,
          [LoginEvent.bf_check_ip, LoginEvent.bf_check_username, LoginEvent.db_lookup,
           LoginEvent.bf_record_failure]⟩

/-- `jwt.decode` succeeds on a model token iff it is unexpired
(`ExpiredSignatureError` once `exp` has passed; the spec grants no
leeway beyond strict `now <= exp`) and carries the service audience. -/
def jwt_decode_ok (p : TokenPayload) (now : Nat) : Bool :=
  !(decide (p.exp < now)) && (p.aud == "codegenius-api")

/-- One iteration of the logout loop over the presented cookies: decode
the token (decode failures are ignored), skip falsy `jti`/`exp`
(`if jti and exp`), and otherwise push the `jti` onto the denylist with
the token's own `exp`. -/
def logout_deny_token (d : DenyState) (tok : Option TokenPayload) (now : Nat) : DenyState :=
  match tok with
  | none => d
  | some p =>
    if jwt_decode_ok p now = false then d
    else if p.jti = "" ∨ p.exp = 0 then d
    else add_jti_to_denylist false d p.jti p.exp now

/-- `secure_logout` (route `POST /logout`), memory backends: run the
denial loop over the access and refresh cookies, then invalidate the
session named by the `session_id` cookie. -/
def secure_logout (st : AuthState) (access refresh : Option TokenPayload)
    (session_cookie : Option String) (now : Nat) : AuthState :=
  let d2 := logout_deny_token (logout_deny_token st.deny access now) refresh now
  let sess :=
    match session_cookie with
    | some sid => invalidate_session st.sess sid
    | none => st.sess
  ⟨d2, st.bf, sess⟩

/-- The typed failures of `get_current_user_from_cookie`
(all surfaced as 401). -/
inductive AuthError
  | authRequired
  | invalidAccessToken
  | invalidTokenType
  | tokenRevoked
  | invalidSession
deriving Repr, DecidableEq

/-- `get_current_user_from_cookie`, memory backends: require both the
access-token and session-id cookies; decode the token (expired or
wrong-audience tokens raise `PyJWTError` → 401), require
`type == 'access'`, reject a revoked `jti`, then validate the session
named **by the token payload** and require its `user_id` to match
`sub`.  Returns the resolved user/session context and the state after
the call (`validate_session` may remove an expired session). -/
def get_current_user_from_cookie (strict_ip : Bool) (st : AuthState)
    (access : Option TokenPayload) (session_cookie : Option String)
    (ip : String) (now : Nat) :
    Except AuthError (Nat × String × SessionRec) × AuthState :=
  match access, session_cookie with
  | none, _ => (Except.error AuthError.authRequired, st)
  | some _, none => (Except.error AuthError.authRequired, st)
  | some p, some _ =>
    if jwt_decode_ok p now = false then (Except.error AuthError.invalidAccessToken, st)
    else if p.type ≠ "access" then (Except.error AuthError.invalidTokenType, st)
    else if is_jti_revoked false st.deny p.jti now then
      (Except.error AuthError.tokenRevoked, st)
    else
      let v := validate_session strict_ip st.sess p.session_id ip now
      match v.1 with
      | none => (Except.error AuthError.invalidSession, ⟨st.deny, st.bf, v.2⟩)
      | some data =>
        if data.user_id ≠ p.sub then (Except.error AuthError.invalidSession, ⟨st.deny, st.bf, v.2⟩)
        else (Except.ok (p.sub, p.session_id, data), ⟨st.deny, st.bf, v.2⟩)

/-- Whether a route outcome is one of the typed rejections. -/
def exceptIsError {e a : Type} : Except e a → Bool
  | Except.error _ => true
  | Except.ok _ => false

/-- The end-to-end scenario state: a login (`create_session` with fresh
`sid`/`jti`s at time `t0`) followed by a logout at time `t1` that
presents all three issued credentials; returns the issued tokens and
the state after the logout. -/
def login_logout_state (st : AuthState) (user_id : Nat) (ip ua : String)
    (rm : Bool) (sid aj rj : String) (t0 t1 : Nat) : LoginTokens × AuthState :=
  let r := create_session st.sess user_id ip ua rm sid aj rj t0
  (r.1,
   secure_logout ⟨st.deny, st.bf, r.2⟩ (some r.1.access_token) (some r.1.refresh_token)
     (some sid) t1)

/-! ## Theorems -/

/-- Claim C1, counterexample: two logins at time 0 differing only in
`remember_me` get refresh tokens with the same `exp` (30 days), so the
refresh token's TTL is not shorter when `remember_me` is false. -/
theorem C1_counterexample :
    (create_session sessInit 1 "1.2.3.4" "agent" false "sid" "aj" "rj" 0).1.refresh_token.exp
      = (create_session sessInit 1 "1.2.3.4" "agent" true "sid" "aj" "rj" 0).1.refresh_token.exp
    ∧ (create_session sessInit 1 "1.2.3.4" "agent" false "sid" "aj" "rj" 0).1.refresh_token.exp
      = 30 * 86400 :=
  ⟨rfl, rfl⟩

/-- Claim C1 (amended): for every `create_session` call the access
token's TTL is 15 minutes and the refresh token's TTL is a fixed 30
days, independent of `remember_me`; `remember_me` gates only the stored
session record's `expires_at` (30 days vs 24 hours). -/
theorem C1_token_ttls (st : SessionState) (user_id : Nat) (ip ua : String)
    (remember_me : Bool) (sid aj rj : String) (now : Nat) :
    (create_session st user_id ip ua remember_me sid aj rj now).1.access_token.exp
      = now + 15 * 60
    ∧ (create_session st user_id ip ua remember_me sid aj rj now).1.refresh_token.exp
      = now + 30 * 86400
    ∧ (create_session st user_id ip ua remember_me sid aj rj now).2.sessions sid
      = some ⟨user_id, sid, ip, ua.take 200, now,
          now + (if remember_me then 30 * 86400 else 24 * 3600), remember_me, true⟩ := by
  refine ⟨rfl, rfl, ?_⟩
  simp [create_session, create_token, refresh_duration, session_duration]

/-- Claim C2, counterexample: with the in-memory fallback backend,
after `add_jti_to_denylist("j", exp=10)` at time 0, `is_jti_revoked`
still answers `true` at time 1000 — long after `exp` — because the
fallback set has no expiry, so the entry is not absent after `exp` and
the registry's growth is not bounded. -/
theorem C2_counterexample :
    10 < 1000
    ∧ is_jti_revoked false (add_jti_to_denylist false denyInit "j" 10 0) "j" 1000 = true :=
  ⟨by decide, rfl⟩

/-- Claim C2 (amended): with the Redis backend, once
`add_jti_to_denylist(jti, exp)` has been called at a time `now < exp`,
`is_jti_revoked(jti)` is `true` at every time in `[now, exp)` and the
denylist key is absent from the store (so `is_jti_revoked` is `false`)
at every time from `exp` on; with the in-memory fallback the entry
never expires: `is_jti_revoked(jti)` stays `true` at every time. -/
theorem C2_denylist_expiry (st : DenyState) (jti : String) (exp now : Nat)
    (h : now < exp) :
    (∀ t, now ≤ t → t < exp →
      is_jti_revoked true (add_jti_to_denylist true st jti exp now) jti t = true)
    ∧ (∀ t, exp ≤ t →
      denyRedisGet (add_jti_to_denylist true st jti exp now) jti t = none
      ∧ is_jti_revoked true (add_jti_to_denylist true st jti exp now) jti t = false)
    ∧ (∀ t, is_jti_revoked false (add_jti_to_denylist false st jti exp now) jti t = true) := by
  have hsub : exp - now ≠ 0 := by omega
  have hkey : (add_jti_to_denylist true st jti exp now).redisDeny jti = some exp := by
    simp [add_jti_to_denylist, hsub]
    omega
  refine ⟨?_, ?_, ?_⟩
  · intro t _ ht2
    simp [is_jti_revoked, denyRedisGet, hkey, ht2]
  · intro t ht
    have : ¬ t < exp := by omega
    simp [is_jti_revoked, denyRedisGet, hkey, this]
  · intro t
    simp [is_jti_revoked, add_jti_to_denylist]

/-- Claim C2, witness: deny `"j"` with `exp = 10` at time 3; revoked at
time 5, absent and not revoked at time 12, and with the fallback
backend still revoked at time 12. -/
theorem C2_witness :
    is_jti_revoked true (add_jti_to_denylist true denyInit "j" 10 3) "j" 5 = true
    ∧ denyRedisGet (add_jti_to_denylist true denyInit "j" 10 3) "j" 12 = none
    ∧ is_jti_revoked true (add_jti_to_denylist true denyInit "j" 10 3) "j" 12 = false
    ∧ is_jti_revoked false (add_jti_to_denylist false denyInit "j" 10 3) "j" 12 = true :=
  ⟨(C2_denylist_expiry denyInit "j" 10 3 (by decide)).1 5 (by decide) (by decide),
   ((C2_denylist_expiry denyInit "j" 10 3 (by decide)).2.1 12 (by decide)).1,
   ((C2_denylist_expiry denyInit "j" 10 3 (by decide)).2.1 12 (by decide)).2,
   (C2_denylist_expiry denyInit "j" 10 3 (by decide)).2.2 12⟩

/-- Claim C3, counterexample: with the in-memory fallback backend, a
failure recorded at time 0 followed by one at time 1000 (more than the
900-second lockout window later) leaves the stored counter at 2, not 1:
the fallback increments monotonically with no sliding-window reset. -/
theorem C3_counterexample :
    900 < 1000
    ∧ (record_failure false (record_failure false bfInit "u" 0) "u" 1000).failed_attempts "u"
        = 2 :=
  ⟨by decide, rfl⟩

/-- Claim C3 (amended): with the Redis backend (counter keys carry a
900-second expiry refreshed on every failure), a `record_failure`
occurring once the key's expiry has passed — i.e. at least the lockout
window after the last failure — stores the counter as 1, as does a
failure for an identifier with no key at all; with the in-memory
fallback every `record_failure` increments the previous counter. -/
theorem C3_record_failure_window (st : BFState) (id : String) (now c e : Nat) :
    (st.redisAttempts id = some (c, e) → e ≤ now →
      (record_failure true st id now).redisAttempts id = some (1, now + lockout_seconds))
    ∧ (st.redisAttempts id = none →
      (record_failure true st id now).redisAttempts id = some (1, now + lockout_seconds))
    ∧ (record_failure false st id now).failed_attempts id = st.failed_attempts id + 1 := by
  refine ⟨?_, ?_, ?_⟩
  · intro hk hexp
    have : ¬ now < e := by omega
    simp [record_failure, redisGetAttempts, hk, this]
  · intro hk
    simp [record_failure, redisGetAttempts, hk]
  · simp [record_failure]

/-- Claim C3, witness: a counter of 3 recorded with expiry 900 is reset
to 1 (with a fresh expiry) by a failure at time 1000. -/
theorem C3_witness :
    (record_failure true ⟨fun k => if k = "u" then some (3, 900) else none, fun _ => 0⟩
        "u" 1000).redisAttempts "u" = some (1, 1900) :=
  (C3_record_failure_window
      ⟨fun k => if k = "u" then some (3, 900) else none, fun _ => 0⟩
      "u" 1000 3 900).1 rfl (by decide)

/-- Claim C4: from any starting state, five consecutive
`record_failure` calls with no intervening reset make the next `check`
report `blocked = true` with `retry_after = 900`, and after a `reset`
the next `check` reports `blocked = false` and `attempts = 0` — on the
in-memory backend, and likewise on the Redis backend for five failures
within one window (here recorded at one time `now`). -/
theorem C4_lockout_and_reset (st : BFState) (id : String) (now : Nat) :
    ((bf_check false (record_failure false (record_failure false (record_failure false
        (record_failure false (record_failure false st id now) id now) id now) id now) id now)
        id now).blocked = true
      ∧ (bf_check false (record_failure false (record_failure false (record_failure false
          (record_failure false (record_failure false st id now) id now) id now) id now) id now)
          id now).retry_after = 900)
    ∧ bf_check false (bf_reset false st id) id now = ⟨false, 0, 900⟩
    ∧ ((bf_check true (record_failure true (record_failure true (record_failure true
        (record_failure true (record_failure true st id now) id now) id now) id now) id now)
        id now).blocked = true
      ∧ (bf_check true (record_failure true (record_failure true (record_failure true
          (record_failure true (record_failure true st id now) id now) id now) id now) id now)
          id now).retry_after = 900)
    ∧ bf_check true (bf_reset true st id) id now = ⟨false, 0, 900⟩ := by
  refine ⟨⟨?_, ?_⟩, ?_, ⟨?_, ?_⟩, ?_⟩
  · simp [bf_check, record_failure, max_attempts]
  · simp [bf_check, record_failure, lockout_seconds]
  · simp [bf_check, bf_reset, max_attempts, lockout_seconds]
  · simp [bf_check, record_failure, redisGetAttempts, max_attempts, lockout_seconds]
  · simp [bf_check, record_failure, redisGetAttempts, lockout_seconds]
  · simp [bf_check, bf_reset, redisGetAttempts, max_attempts, lockout_seconds]

/-- Expected decisions of a burst of in-window rate-limit calls
starting from counter value `c`: each call is allowed while the counter
is below `N` and denied afterwards. -/
def fw_results (N : Nat) : Nat → Nat → List Bool
  | _, 0 => []
  | c, n + 1 => decide (c < N) :: fw_results N (c + 1) n

theorem fw_results_of_le (N c n : Nat) (h : N ≤ c) :
    fw_results N c n = List.replicate n false := by
  induction n generalizing c with
  | zero => rfl
  | succ n ih =>
    simp [fw_results, List.replicate_succ, ih (c + 1) (by omega),
      decide_eq_false (by omega : ¬ c < N)]

theorem fw_results_getD (N : Nat) :
    ∀ n c i, i < n → (fw_results N c n).getD i false = decide (c + i < N)
  | n + 1, c, 0, _ => by simp [fw_results]
  | n + 1, c, i + 1, h => by
    rw [fw_results, List.getD_cons_succ, fw_results_getD N n (c + 1) i (by omega)]
    exact decide_eq_decide.mpr (by omega)

/-- Trace of a burst of `_memory_rate_limit` calls that all fall inside
the window opened at `t1`: starting from a stored counter `c ≤ N`, the
decisions are `fw_results N c` and the final counter is
`min (c + number of calls) N`, with `window_start` untouched. -/
theorem memory_rate_limit_run_within (key : String) (N W t1 : Nat) (ts : List Nat) :
    ∀ (store : String → Option RLEntry) (c : Nat), c ≤ N →
      store key = some ⟨c, t1⟩ →
      (∀ t ∈ ts, t1 ≤ t ∧ t < t1 + W) →
      (memory_rate_limit_run store key N W ts).1 = fw_results N c ts.length
      ∧ (memory_rate_limit_run store key N W ts).2 key
          = some ⟨min (c + ts.length) N, t1⟩ := by
  induction ts with
  | nil =>
    intro store c hc hk _
    exact ⟨rfl, by simp [memory_rate_limit_run, hk, Nat.min_eq_left hc]⟩
  | cons t ts ih =>
    intro store c hc hk hts
    obtain ⟨ht1, ht2⟩ := hts t (List.mem_cons_self t ts)
    have hwin : ¬ W ≤ t - t1 := by omega
    have hts' : ∀ u ∈ ts, t1 ≤ u ∧ u < t1 + W :=
      fun u hu => hts u (List.mem_cons_of_mem t hu)
    by_cases hblock : N ≤ c
    · have step : memory_rate_limit store key N W t = (false, store) := by
        simp [memory_rate_limit, hk, hwin, hblock]
      have hrest := ih store c hc hk hts'
      refine ⟨?_, ?_⟩
      · simp only [memory_rate_limit_run, step, hrest.1, List.length_cons, fw_results]
        rw [fw_results_of_le N c ts.length hblock,
          fw_results_of_le N (c + 1) ts.length (by omega),
          decide_eq_false (by omega : ¬ c < N)]
      · simp only [memory_rate_limit_run, step, hrest.2, List.length_cons]
        congr 2
        omega
    · have step : memory_rate_limit store key N W t
          = (true, fun k => if k = key then some ⟨c + 1, t1⟩ else store k) := by
        simp [memory_rate_limit, hk, hwin, hblock]
      have hk' : (fun k => if k = key then some (⟨c + 1, t1⟩ : RLEntry) else store k) key
          = some ⟨c + 1, t1⟩ := by simp
      have hrest := ih (fun k => if k = key then some (⟨c + 1, t1⟩ : RLEntry) else store k)
          (c + 1) (by omega) hk' hts'
      refine ⟨?_, ?_⟩
      · simp only [memory_rate_limit_run, step, hrest.1, List.length_cons, fw_results]
        rw [decide_eq_true (by omega : c < N)]
      · simp only [memory_rate_limit_run, step, hrest.2, List.length_cons]
        congr 2
        omega

/-- Claim C5: starting from a store with no entry for `key`, a first
call at `t1` followed by further calls all within `[t1, t1 + W)` yields
`true` for the first `N` calls and `false` for every further call, and
a first call at any time `u ≥ t1 + W` is allowed again with the counter
restarted at 1 (window restarted at `u`). -/
theorem C5_fixed_window (N W t1 : Nat) (ts : List Nat) (key : String)
    (store : String → Option RLEntry)
    (hN : 1 ≤ N) (h0 : store key = none)
    (hts : ∀ t ∈ ts, t1 ≤ t ∧ t < t1 + W) :
    (∀ i, i < ts.length + 1 →
      (memory_rate_limit_run store key N W (t1 :: ts)).1.getD i false = decide (i < N))
    ∧ (∀ u, t1 + W ≤ u →
        (memory_rate_limit (memory_rate_limit_run store key N W (t1 :: ts)).2 key N W u).1
          = true
        ∧ (memory_rate_limit (memory_rate_limit_run store key N W (t1 :: ts)).2 key N W u).2 key
          = some ⟨1, u⟩) := by
  have step : memory_rate_limit store key N W t1
      = (true, fun k => if k = key then some ⟨1, t1⟩ else store k) := by
    simp [memory_rate_limit, h0]
  have hk1 : (fun k => if k = key then some (⟨1, t1⟩ : RLEntry) else store k) key
      = some ⟨1, t1⟩ := by simp
  have hrest := memory_rate_limit_run_within key N W t1 ts
      (fun k => if k = key then some (⟨1, t1⟩ : RLEntry) else store k) 1 hN hk1 hts
  constructor
  · intro i hi
    simp only [memory_rate_limit_run, step, hrest.1]
    match i with
    | 0 => simpa using by omega
    | i + 1 =>
      rw [List.getD_cons_succ, fw_results_getD N ts.length 1 i (by omega)]
      exact decide_eq_decide.mpr (by omega)
  · intro u hu
    have hfin : (memory_rate_limit_run store key N W (t1 :: ts)).2 key
        = some ⟨min (1 + ts.length) N, t1⟩ := by
      simp only [memory_rate_limit_run, step]
      exact hrest.2
    have hwin : W ≤ u - t1 := by omega
    constructor
    · simp [memory_rate_limit, hfin, hwin]
    · simp [memory_rate_limit, hfin, hwin]

/-- Claim C5, witness: `N = 5`, `W = 60`, first call at time 0 and five
more in-window calls; the decisions are the first six values of
`i < 5`, and a call at time 60 is allowed with the counter back at 1. -/
theorem C5_witness :
    ((memory_rate_limit_run (fun _ => none) "login:1.2.3.4" 5 60 [0, 10, 20, 30, 40, 50]).1.getD
        5 false = decide (5 < 5))
    ∧ (memory_rate_limit
        (memory_rate_limit_run (fun _ => none) "login:1.2.3.4" 5 60 [0, 10, 20, 30, 40, 50]).2
        "login:1.2.3.4" 5 60 60).1 = true
    ∧ (memory_rate_limit
        (memory_rate_limit_run (fun _ => none) "login:1.2.3.4" 5 60 [0, 10, 20, 30, 40, 50]).2
        "login:1.2.3.4" 5 60 60).2 "login:1.2.3.4" = some ⟨1, 60⟩ :=
  ⟨(C5_fixed_window 5 60 0 [10, 20, 30, 40, 50] "login:1.2.3.4" (fun _ => none)
      (by decide) rfl (by decide)).1 5 (by decide),
   ((C5_fixed_window 5 60 0 [10, 20, 30, 40, 50] "login:1.2.3.4" (fun _ => none)
      (by decide) rfl (by decide)).2 60 (by decide)).1,
   ((C5_fixed_window 5 60 0 [10, 20, 30, 40, 50] "login:1.2.3.4" (fun _ => none)
      (by decide) rfl (by decide)).2 60 (by decide)).2⟩

/-- Claim C8: `_redis_rate_limit` fails open — whenever the store
operation it runs raises (the `GET`, the `SETEX` of a first request, or
the `INCR` of an under-limit request), the limiter answers `true`; and
it answers `false` only when the `GET` succeeded with a count already at
the limit. -/
theorem C8_fail_open (g : Except Unit (Option Nat)) (s : Except Unit Unit)
    (i : Except Unit Nat) (m : Nat) :
    (∀ e, g = Except.error e → redis_rate_limit g s i m = true)
    ∧ (∀ e, g = Except.ok none → s = Except.error e → redis_rate_limit g s i m = true)
    ∧ (∀ c e, g = Except.ok (some c) → c < m → i = Except.error e →
        redis_rate_limit g s i m = true)
    ∧ (redis_rate_limit g s i m = false → ∃ c, g = Except.ok (some c) ∧ m ≤ c) := by
  refine ⟨?_, ?_, ?_, ?_⟩
  · intro e hg
    subst hg
    rfl
  · intro e hg hs
    subst hg
    subst hs
    rfl
  · intro c e hg hc hi
    subst hg
    subst hi
    simp [redis_rate_limit, Nat.not_le.mpr hc]
  · intro hfalse
    rcases g with e | cur
    · simp [redis_rate_limit] at hfalse
    · rcases cur with _ | c
      · rcases s with e | u
        · simp [redis_rate_limit] at hfalse
        · simp [redis_rate_limit] at hfalse
      · by_cases hm : m ≤ c
        · exact ⟨c, rfl, hm⟩
        · rcases i with e | n
          · simp [redis_rate_limit, hm] at hfalse
          · simp [redis_rate_limit, hm] at hfalse

/-- Claim C8, witness: a failing `GET` yields an allowed request, as
does a failing `INCR` under the limit; a healthy store at the limit
still blocks. -/
theorem C8_witness :
    redis_rate_limit (Except.error ()) (Except.ok ()) (Except.ok 3) 5 = true
    ∧ redis_rate_limit (Except.ok (some 2)) (Except.ok ()) (Except.error ()) 5 = true :=
  ⟨(C8_fail_open (Except.error ()) (Except.ok ()) (Except.ok 3) 5).1 () rfl,
   (C8_fail_open (Except.ok (some 2)) (Except.ok ()) (Except.error ()) 5).2.2.1 2 () rfl
     (by decide) rfl⟩

/-- Claim C9: `validate_session` on a stored, active session whose
`expires_at` is in the past returns `None` and removes the record; a
second `validate_session` for the same `session_id` (at any time, from
any caller IP) also returns `None` and leaves the store unchanged. -/
theorem C9_validate_expired_idempotent (strict : Bool) (st : SessionState)
    (sid ip ip2 : String) (now now2 : Nat) (d : SessionRec)
    (hk : st.sessions sid = some d) (ha : d.active = true)
    (hexp : d.expires_at < now) :
    (validate_session strict st sid ip now).1 = none
    ∧ (validate_session strict st sid ip now).2.sessions sid = none
    ∧ (validate_session strict (validate_session strict st sid ip now).2 sid ip2 now2).1 = none
    ∧ (validate_session strict (validate_session strict st sid ip now).2 sid ip2 now2).2
        = (validate_session strict st sid ip now).2 := by
  have h1 : validate_session strict st sid ip now = (none, invalidate_session st sid) := by
    simp [validate_session, hk, ha, hexp]
  have h2 : (invalidate_session st sid).sessions sid = none := by
    simp [invalidate_session]
  refine ⟨by rw [h1], by rw [h1]; exact h2, ?_, ?_⟩
  · rw [h1]
    simp [validate_session, h2]
  · rw [h1]
    simp [validate_session, h2]

/-- Claim C9, witness: a session stored as active with `expires_at = 10`
validated at time 11 and re-validated at time 12. -/
theorem C9_witness :
    (validate_session false
        ⟨fun k => if k = "s" then some ⟨1, "s", "ip", "ua", 0, 10, false, true⟩ else none⟩
        "s" "ip" 11).1 = none
    ∧ (validate_session false
        ⟨fun k => if k = "s" then some ⟨1, "s", "ip", "ua", 0, 10, false, true⟩ else none⟩
        "s" "ip" 11).2.sessions "s" = none
    ∧ (validate_session false
        (validate_session false
          ⟨fun k => if k = "s" then some ⟨1, "s", "ip", "ua", 0, 10, false, true⟩ else none⟩
          "s" "ip" 11).2 "s" "ip2" 12).1 = none :=
  ⟨(C9_validate_expired_idempotent false _ "s" "ip" "ip2" 11 12 _ rfl rfl (by decide)).1,
   (C9_validate_expired_idempotent false _ "s" "ip" "ip2" 11 12 _ rfl rfl (by decide)).2.1,
   (C9_validate_expired_idempotent false _ "s" "ip" "ip2" 11 12 _ rfl rfl (by decide)).2.2.1⟩

/-- Claim C10: the Redis branch of `validate_session` is total and maps
every internal failure to `None`, for every possible behaviour of the
two library parsers: a missing record gives `None`, a `json.loads`
failure gives `None`, any exception from the remaining checks (missing
`expires_at` key, unparsable timestamp) gives `None`, and otherwise the
result is exactly what the checks computed (a record or `None`). -/
theorem C10_validate_total (json_loads : String → Except Unit SessionJson)
    (fromisoformat : String → Except Unit Nat) (strict : Bool)
    (raw : Option String) (ip : String) (now : Nat) :
    (raw = none → validate_session_redis json_loads fromisoformat strict raw ip now = none)
    ∧ (∀ s e, raw = some s → json_loads s = Except.error e →
        validate_session_redis json_loads fromisoformat strict raw ip now = none)
    ∧ (∀ s d e, raw = some s → json_loads s = Except.ok d →
        validate_session_redis_body fromisoformat strict d ip now = Except.error e →
        validate_session_redis json_loads fromisoformat strict raw ip now = none)
    ∧ (∀ s d r, raw = some s → json_loads s = Except.ok d →
        validate_session_redis_body fromisoformat strict d ip now = Except.ok r →
        validate_session_redis json_loads fromisoformat strict raw ip now = r) := by
  refine ⟨?_, ?_, ?_, ?_⟩
  · intro h
    subst h
    rfl
  · intro s e hraw hjson
    subst hraw
    simp [validate_session_redis, hjson]
  · intro s d e hraw hjson hbody
    subst hraw
    simp [validate_session_redis, hjson, hbody]
  · intro s d r hraw hjson hbody
    subst hraw
    simp [validate_session_redis, hjson, hbody]

/-- Claim C10, witness: a record that is not JSON, and a JSON record
whose `expires_at` does not parse, both validate to `None`; a healthy
record validates to itself. -/
theorem C10_witness :
    validate_session_redis (fun _ => Except.error ()) (fun _ => Except.ok 99) false
      (some "not json") "ip" 5 = none
    ∧ validate_session_redis (fun _ => Except.ok ⟨some true, some "bad", none⟩)
      (fun _ => Except.error ()) false (some "x") "ip" 5 = none
    ∧ validate_session_redis (fun _ => Except.ok ⟨some true, some "t", some "ip"⟩)
      (fun _ => Except.ok 99) false (some "x") "ip" 5
      = some ⟨some true, some "t", some "ip"⟩ :=
  ⟨(C10_validate_total (fun _ => Except.error ()) (fun _ => Except.ok 99) false
      (some "not json") "ip" 5).2.1 "not json" () rfl rfl,
   (C10_validate_total (fun _ => Except.ok ⟨some true, some "bad", none⟩)
      (fun _ => Except.error ()) false (some "x") "ip" 5).2.2.1 "x"
      ⟨some true, some "bad", none⟩ () rfl rfl rfl,
   (C10_validate_total (fun _ => Except.ok ⟨some true, some "t", some "ip"⟩)
      (fun _ => Except.ok 99) false (some "x") "ip" 5).2.2.2 "x"
      ⟨some true, some "t", some "ip"⟩ (some ⟨some true, some "t", some "ip"⟩) rfl rfl
      (by simp [validate_session_redis_body])⟩

/-- `get_current_user_from_cookie` rejects whenever the session named
by the token payload is absent from the store, whatever else the token
looks like: every branch of the dependency ends in a 401-class typed
error. -/
theorem get_current_user_rejected (strict : Bool) (st : AuthState) (p : TokenPayload)
    (sc : Option String) (ip : String) (now : Nat)
    (hsess : st.sess.sessions p.session_id = none) :
    exceptIsError (get_current_user_from_cookie strict st (some p) sc ip now).1 = true := by
  cases sc with
  | none => rfl
  | some s0 =>
    by_cases h1 : jwt_decode_ok p now = false
    · simp [get_current_user_from_cookie, h1, exceptIsError]
    · by_cases h2 : p.type = "access"
      · by_cases h3 : is_jti_revoked false st.deny p.jti now = true
        · simp [get_current_user_from_cookie, h1, h2, h3, exceptIsError]
        · have hv : validate_session strict st.sess p.session_id ip now = (none, st.sess) := by
            simp [validate_session, hsess]
          simp [get_current_user_from_cookie, h1, h2, h3, hv, exceptIsError]
      · simp [get_current_user_from_cookie, h1, h2, exceptIsError]

/-- The logout denial loop only ever adds entries to the fallback
denylist set; it never drops one. -/
theorem mem_logout_deny_token (d : DenyState) (tok : Option TokenPayload) (now : Nat)
    (x : String) (hx : x ∈ d.memDeny) : x ∈ (logout_deny_token d tok now).memDeny := by
  cases tok with
  | none => exact hx
  | some p =>
    by_cases h1 : jwt_decode_ok p now = false
    · simpa [logout_deny_token, h1] using hx
    · by_cases h2 : p.jti = "" ∨ p.exp = 0
      · simpa [logout_deny_token, h1, h2] using hx
      · simp [logout_deny_token, h1, h2, add_jti_to_denylist]
        exact Or.inr hx

/-- Claim C6: after a login at `t0` and a logout at `t1` presenting the
issued access token, refresh token and `session_id`, every subsequent
`get_current_user_from_cookie` call with that access token is rejected,
`validate_session(session_id, ip)` returns `None`, and — whenever the
logout happened before the access token's own expiry (so its decode
succeeded) and its `jti` is non-empty — the access token's `jti` is on
the denylist. -/
theorem C6_logout_revokes (st : AuthState) (strict : Bool) (user_id : Nat)
    (ip ip2 ua : String) (rm : Bool) (sid aj rj : String) (t0 t1 t2 : Nat) :
    exceptIsError (get_current_user_from_cookie strict
        (login_logout_state st user_id ip ua rm sid aj rj t0 t1).2
        (some (login_logout_state st user_id ip ua rm sid aj rj t0 t1).1.access_token)
        (some sid) ip2 t2).1 = true
    ∧ (validate_session strict (login_logout_state st user_id ip ua rm sid aj rj t0 t1).2.sess
        sid ip2 t2).1 = none
    ∧ (t1 ≤ t0 + 900 → aj ≠ "" →
        is_jti_revoked false (login_logout_state st user_id ip ua rm sid aj rj t0 t1).2.deny
          aj t2 = true) := by
  have hsess : (login_logout_state st user_id ip ua rm sid aj rj t0 t1).2.sess.sessions sid
      = none := by
    simp [login_logout_state, secure_logout, invalidate_session]
  refine ⟨?_, ?_, ?_⟩
  · exact get_current_user_rejected strict _ _ (some sid) ip2 t2 hsess
  · simp [validate_session, hsess]
  · intro ht hj
    have hdec : jwt_decode_ok
        ⟨user_id, sid, "access", t0 + (15 * 60 + 0 * 86400), t0, aj, "codegenius-api",
          "codegenius.ai"⟩ t1 = true := by
      simp [jwt_decode_ok]
      omega
    have h1 : aj ∈ (logout_deny_token st.deny
        (some ⟨user_id, sid, "access", t0 + (15 * 60 + 0 * 86400), t0, aj, "codegenius-api",
          "codegenius.ai"⟩) t1).memDeny := by
      simp [logout_deny_token, hdec, hj, add_jti_to_denylist]
    have h2 := mem_logout_deny_token _
      (some ⟨user_id, sid, "refresh", t0 + (0 * 60 + 30 * 86400), t0, rj, "codegenius-api",
        "codegenius.ai"⟩) t1 aj h1
    show ((logout_deny_token (logout_deny_token st.deny _ t1) _ t1).memDeny).contains aj = true
    exact List.elem_iff.mpr h2

/-- Claim C6, witness: user 1 logs in at time 0 (`remember_me = false`),
logs out at time 100; at time 200 the session no longer validates and
the access token's `jti` is denied. -/
theorem C6_witness :
    (validate_session false
        (login_logout_state ⟨denyInit, bfInit, sessInit⟩ 1 "1.2.3.4" "agent" false
          "s" "a" "r" 0 100).2.sess "s" "1.2.3.4" 200).1 = none
    ∧ is_jti_revoked false
        (login_logout_state ⟨denyInit, bfInit, sessInit⟩ 1 "1.2.3.4" "agent" false
          "s" "a" "r" 0 100).2.deny "a" 200 = true
    ∧ exceptIsError (get_current_user_from_cookie false
        (login_logout_state ⟨denyInit, bfInit, sessInit⟩ 1 "1.2.3.4" "agent" false
          "s" "a" "r" 0 100).2
        (some (login_logout_state ⟨denyInit, bfInit, sessInit⟩ 1 "1.2.3.4" "agent" false
          "s" "a" "r" 0 100).1.access_token)
        (some "s") "1.2.3.4" 200).1 = true :=
  ⟨(C6_logout_revokes ⟨denyInit, bfInit, sessInit⟩ false 1 "1.2.3.4" "1.2.3.4" "agent" false
      "s" "a" "r" 0 100 200).2.1,
   (C6_logout_revokes ⟨denyInit, bfInit, sessInit⟩ false 1 "1.2.3.4" "1.2.3.4" "agent" false
      "s" "a" "r" 0 100 200).2.2 (by decide) (by decide),
   (C6_logout_revokes ⟨denyInit, bfInit, sessInit⟩ false 1 "1.2.3.4" "1.2.3.4" "agent" false
      "s" "a" "r" 0 100 200).1⟩

/-- Claim C7: in every `secure_login` request, a blocked client IP is
rejected 429 — and a blocked username 423 — with neither the user-store
lookup nor password verification performed; and in every request
whatsoever, the two brute-force checks (IP first, then username) come
before any user-store lookup, which comes before any password
verification. -/
theorem C7_login_ordering (db : String → Option UserRow)
    (vp : String → String → Bool) (st : AuthState)
    (username password ip ua : String) (rm : Bool)
    (sid aj rj : String) (now : Nat) :
    ((bf_check false st.bf ip now).blocked = true →
      (secure_login db vp st username password ip ua rm sid aj rj now).res
          = Except.error LoginError.tooManyRequests
      ∧ (secure_login db vp st username password ip ua rm sid aj rj now).events
          = [LoginEvent.bf_check_ip]
      ∧ LoginEvent.db_lookup ∉ (secure_login db vp st username password ip ua rm sid aj rj now).events
      ∧ LoginEvent.password_verify ∉ (secure_login db vp st username password ip ua rm sid aj rj now).events)
    ∧ ((bf_check false st.bf ip now).blocked = false →
       (bf_check false st.bf username now).blocked = true →
      (secure_login db vp st username password ip ua rm sid aj rj now).res
          = Except.error LoginError.accountLocked
      ∧ (secure_login db vp st username password ip ua rm sid aj rj now).events
          = [LoginEvent.bf_check_ip, LoginEvent.bf_check_username]
      ∧ LoginEvent.db_lookup ∉ (secure_login db vp st username password ip ua rm sid aj rj now).events
      ∧ LoginEvent.password_verify ∉ (secure_login db vp st username password ip ua rm sid aj rj now).events)
    ∧ (LoginEvent.db_lookup ∈ (secure_login db vp st username password ip ua rm sid aj rj now).events →
        (secure_login db vp st username password ip ua rm sid aj rj now).events.take 3
          = [LoginEvent.bf_check_ip, LoginEvent.bf_check_username, LoginEvent.db_lookup])
    ∧ (LoginEvent.password_verify ∈ (secure_login db vp st username password ip ua rm sid aj rj now).events →
        (secure_login db vp st username password ip ua rm sid aj rj now).events.take 4
          = [LoginEvent.bf_check_ip, LoginEvent.bf_check_username, LoginEvent.db_lookup,
             LoginEvent.password_verify]) := by
  refine ⟨?_, ?_, ?_, ?_⟩
  · intro h
    simp [secure_login, h]
  · intro h1 h2
    simp [secure_login, h1, h2]
  · intro hmem
    by_cases h1 : (bf_check false st.bf ip now).blocked = true
    · simp [secure_login, h1] at hmem
    · by_cases h2 : (bf_check false st.bf username now).blocked = true
      · simp [secure_login, h1, h2] at hmem
      · cases hdb : db username with
        | some u =>
          by_cases hv : vp password u.hashed_password = true
          · simp [secure_login, h1, h2, hdb, hv]
          · simp [secure_login, h1, h2, hdb, hv]
        | none => simp [secure_login, h1, h2, hdb]
  · intro hmem
    by_cases h1 : (bf_check false st.bf ip now).blocked = true
    · simp [secure_login, h1] at hmem
    · by_cases h2 : (bf_check false st.bf username now).blocked = true
      · simp [secure_login, h1, h2] at hmem
      · cases hdb : db username with
        | some u =>
          by_cases hv : vp password u.hashed_password = true
          · simp [secure_login, h1, h2, hdb, hv]
          · simp [secure_login, h1, h2, hdb, hv]
        | none => simp [secure_login, h1, h2, hdb] at hmem

/-- Claim C7, witness: with 5 recorded failures against IP `"9.9.9.9"`,
a login from that IP is rejected 429 without looking up the user; and a
healthy login's trace starts with the two checks, the lookup, then the
verification. -/
theorem C7_witness :
    (secure_login (fun u => if u = "alice" then some ⟨1, "alice", "h"⟩ else none)
        (fun _ _ => true)
        ⟨denyInit, ⟨fun _ => none, fun k => if k = "9.9.9.9" then 5 else 0⟩, sessInit⟩
        "alice" "pw" "9.9.9.9" "agent" false "s" "a" "r" 0).res
      = Except.error LoginError.tooManyRequests
    ∧ LoginEvent.db_lookup ∉
        (secure_login (fun u => if u = "alice" then some ⟨1, "alice", "h"⟩ else none)
          (fun _ _ => true)
          ⟨denyInit, ⟨fun _ => none, fun k => if k = "9.9.9.9" then 5 else 0⟩, sessInit⟩
          "alice" "pw" "9.9.9.9" "agent" false "s" "a" "r" 0).events
    ∧ (secure_login (fun u => if u = "alice" then some ⟨1, "alice", "h"⟩ else none)
        (fun _ _ => true) ⟨denyInit, bfInit, sessInit⟩
        "alice" "pw" "9.9.9.9" "agent" false "s" "a" "r" 0).events.take 4
      = [LoginEvent.bf_check_ip, LoginEvent.bf_check_username, LoginEvent.db_lookup,
         LoginEvent.password_verify] :=
  ⟨((C7_login_ordering (fun u => if u = "alice" then some ⟨1, "alice", "h"⟩ else none)
      (fun _ _ => true)
      ⟨denyInit, ⟨fun _ => none, fun k => if k = "9.9.9.9" then 5 else 0⟩, sessInit⟩
      "alice" "pw" "9.9.9.9" "agent" false "s" "a" "r" 0).1 (by decide)).1,
   ((C7_login_ordering (fun u => if u = "alice" then some ⟨1, "alice", "h"⟩ else none)
      (fun _ _ => true)
      ⟨denyInit, ⟨fun _ => none, fun k => if k = "9.9.9.9" then 5 else 0⟩, sessInit⟩
      "alice" "pw" "9.9.9.9" "agent" false "s" "a" "r" 0).1 (by decide)).2.2.1,
   (C7_login_ordering (fun u => if u = "alice" then some ⟨1, "alice", "h"⟩ else none)
      (fun _ _ => true) ⟨denyInit, bfInit, sessInit⟩
      "alice" "pw" "9.9.9.9" "agent" false "s" "a" "r" 0).2.2.2 (by decide)⟩
